import Mathlib

/-!
Shallow embedding of `src/miniauthy.py` (the `TOTPModel` list model and the
`TOTP` view object), together with proofs about the claims of the
specification.

Modelling conventions:
* Byte strings are `List Nat` (one entry per byte).
* External library primitives (PBKDF2 key derivation, Fernet authenticated
  encryption, JSON (de)serialisation of a list of strings, and pyotp's
  `parse_uri` / `provisioning_uri`) are fields of a `Lib` structure; theorems
  that depend on their contracts take those contracts as pointwise
  hypotheses, and a small executable instance `LibC` witnesses that the
  hypotheses are satisfiable.
* A Python function that can raise an exception which the caller does not
  catch is modelled with `Option`: `none` means an uncaught exception.
* The vault file is threaded explicitly: each stateful operation receives the
  current contents of `FILE_LOCATION` (`Option (List Nat)`, `none` = file
  absent) and returns the new contents together with the list of
  `write_bytes` calls it performed.
-/

/-- A pyotp TOTP object as used by `miniauthy`: `issuer`, `name` (account
name), the raw base32 `secret` string, the number of `digits` and the time
`interval` (period).  Absent issuer/name are the empty string (Python
falsiness of `str`). -/
structure OTP where
  issuer : String
  name : String
  secret : String
  digits : Nat
  interval : Nat
deriving DecidableEq, Repr

/-- Default descriptor, only used as the unreachable fallback of guarded list
indexing. -/
def defaultOTP : OTP := ⟨"", "", "", 6, 30⟩

instance : Inhabited OTP := ⟨defaultOTP⟩

/-- The mutable fields of `TOTPModel` (`__init__`, lines 23-29 of
`miniauthy.py`): `_totps`, `_salt`, `_key`, `_unlocked`, `_failedToLoad`. -/
structure ModelState where
  totps : List OTP
  salt : List Nat
  key : List Nat
  unlocked : Bool
  failedToLoad : Bool
deriving DecidableEq, Repr

/-- `TOTPModel.__init__`: empty collection, empty salt and key, both flags
false. -/
def TOTPModel.init : ModelState :=
  { totps := [], salt := [], key := [], unlocked := false, failedToLoad := false }

/-- A parsed JSON value, as produced by `json.load` / `json.loads`.  Object
member order is the insertion order that Python's `dict` preserves. -/
inductive JVal where
  | str : String → JVal
  | num : Int → JVal
  | bool : Bool → JVal
  | null : JVal
  | arr : List JVal → JVal
  | obj : List (String × JVal) → JVal
deriving Repr

/-- A `QModelIndex` as far as `TOTPModel` inspects it: its row, whether it is
valid, and whether its parent is valid. -/
structure MIdx where
  row : Int
  valid : Bool
  parentValid : Bool
deriving DecidableEq, Repr

/-- The values `TOTPModel.data` can return (besides Python `None`, which is
modelled by `Option.none`): a display string or the stored TOTP object. -/
inductive DataVal where
  | str : String → DataVal
  | totp : OTP → DataVal
deriving DecidableEq, Repr

/-- The external library primitives used by `miniauthy`:
* `parseUri` — `pyotp.parse_uri` (`none` = `ValueError`);
* `provisioningUri` — `TOTP.provisioning_uri()`;
* `derive` — PBKDF2-HMAC-SHA256 (480000 iterations) followed by
  `base64.urlsafe_b64encode`, i.e. the Fernet key for a password and salt;
* `encrypt` / `decrypt` — `fernet.Fernet(key).encrypt` / `.decrypt`
  (`decrypt = none` models `fernet.InvalidToken`);
* `jsonEncodeStrs` — `json.dumps(list-of-strings).encode()`;
* `jsonDecodeStrs` — `json.loads` applied to the decrypted vault payload and
  read as a list of strings (`none` = any exception). -/
structure Lib where
  parseUri : String → Option OTP
  provisioningUri : OTP → String
  derive : String → List Nat → List Nat
  encrypt : List Nat → List Nat → List Nat
  decrypt : List Nat → List Nat → Option (List Nat)
  jsonEncodeStrs : List String → List Nat
  jsonDecodeStrs : List Nat → Option (List String)

/-- Value of one base32 character (case-insensitive RFC 4648 alphabet). -/
def b32CharVal (ch : Char) : Option Nat :=
  let c := ch.toUpper
  if 'A' ≤ c ∧ c ≤ 'Z' then some (c.toNat - 'A'.toNat)
  else if '2' ≤ c ∧ c ≤ '7' then some (26 + (c.toNat - '2'.toNat))
  else none

/-- The five bits of a base32 character value, most significant first. -/
def bitsOf5 (v : Nat) : List Bool :=
  [v.testBit 4, v.testBit 3, v.testBit 2, v.testBit 1, v.testBit 0]

/-- Big-endian byte value of a list of bits. -/
def byteOfBits (bs : List Bool) : Nat :=
  bs.foldl (fun a b => 2 * a + (if b then 1 else 0)) 0

/-- Group a bit stream into full bytes, dropping leftover bits. -/
def bytesOfBits : List Bool → List Nat
  | b0 :: b1 :: b2 :: b3 :: b4 :: b5 :: b6 :: b7 :: rest =>
      byteOfBits [b0, b1, b2, b3, b4, b5, b6, b7] :: bytesOfBits rest
  | _ => []

/-- Modelled from the spec: base32 decoding as used by pyotp's secret
handling (`base64.b32decode(secret, casefold=True)` after padding); pyotp is
an external library whose source is not part of this repository.  Decoding
fails (`ValueError`) when a non-alphabet character occurs or `=` appears
before the end. -/
def b32decode (s : String) : Option (List Nat) :=
  let cs := s.data
  let core := cs.takeWhile (fun c => c ≠ '=')
  if (cs.drop core.length).any (fun c => c ≠ '=') then none
  else
    match core.mapM b32CharVal with
    | none => none
    | some vs => some (bytesOfBits (vs.flatMap bitsOf5))

/-- Modelled from the spec: a raw base32 secret string is accepted by the
descriptor-validation step (`pyotp.TOTP(...)` followed by `.now()` inside a
`try: ... except ValueError`) exactly when it base32-decodes and the decoded
secret is non-empty ("fails with `InvalidSecretError` when the string cannot
be base32-decoded or the decoded secret is empty"). -/
def secretValid (s : String) : Bool :=
  match b32decode s with
  | some bs => !bs.isEmpty
  | none => false

/-- `pyotp.TOTP(secret, issuer=issuer, name=name)`: a descriptor with the
default 6 digits and 30-second interval. -/
def pyTOTP (secret issuer name : String) : OTP :=
  { issuer := issuer, name := name, secret := secret, digits := 6, interval := 30 }

/-- The list comprehension `[pyotp.parse_uri(totp) for totp in totps]`
(line 73): left-to-right, an uncaught `ValueError` aborts the whole
comprehension (`none`). -/
def parseAll (L : Lib) : List String → Option (List OTP)
  | [] => some []
  | u :: us =>
    match L.parseUri u with
    | none => none
    | some t =>
      match parseAll L us with
      | none => none
      | some ts => some (t :: ts)

/-- `TOTPModel._save` (lines 81-84): JSON-encode the provisioning URIs of the
collection, encrypt under the current key, prepend the current salt.  The
result is the byte string written to `FILE_LOCATION`. -/
def TOTPModel.save (L : Lib) (st : ModelState) : List Nat :=
  st.salt ++ L.encrypt st.key (L.jsonEncodeStrs (st.totps.map L.provisioningUri))

/-- Tail of `TOTPModel.unlock` from line 72 on: parse the URI list, replace
the collection, record salt and key, save if the vault file did not exist,
set `_unlocked`.  Returns `none` when `pyotp.parse_uri` raises (uncaught). -/
def TOTPModel.unlockLoaded (L : Lib) (st : ModelState) (fileExists : Bool)
    (oldFile : Option (List Nat)) (salt key : List Nat) (uris : List String) :
    Option (ModelState × Option (List Nat) × List (List Nat)) :=
  match parseAll L uris with
  | none => none
  | some ts =>
    let st1 : ModelState := { st with totps := ts, salt := salt, key := key }
    if fileExists then
      some ({ st1 with unlocked := true }, oldFile, [])
    else
      let d := TOTPModel.save L st1
      some ({ st1 with unlocked := true }, some d, [d])

/-- `TOTPModel.unlock` (lines 47-79).  `file` is the current contents of
`FILE_LOCATION` (`none` = absent), `rnd` the bytes `os.urandom(16)` would
return.  Result: `none` when an uncaught exception escapes the slot,
otherwise the new model state, the new file contents, and the list of file
writes performed. -/
def TOTPModel.unlock (L : Lib) (st : ModelState) (file : Option (List Nat))
    (password : String) (rnd : List Nat) :
    Option (ModelState × Option (List Nat) × List (List Nat)) :=
  match file with
  | some fdata =>
    if fdata.length < 16 then some (st, some fdata, [])
    else
      let salt := fdata.take 16
      let key := L.derive password salt
      if 16 < fdata.length then
        match L.decrypt key (fdata.drop 16) with
        | none => some ({ st with failedToLoad := true }, some fdata, [])
        | some pt =>
          match L.jsonDecodeStrs pt with
          | none => none
          | some uris => TOTPModel.unlockLoaded L st true (some fdata) salt key uris
      else
        TOTPModel.unlockLoaded L st true (some fdata) salt key []
  | none =>
    let fdata := rnd
    let salt := fdata.take 16
    let key := L.derive password salt
    if 16 < fdata.length then
      match L.decrypt key (fdata.drop 16) with
      | none => some ({ st with failedToLoad := true }, none, [])
      | some pt =>
        match L.jsonDecodeStrs pt with
        | none => none
        | some uris => TOTPModel.unlockLoaded L st false none salt key uris
    else
      TOTPModel.unlockLoaded L st false none salt key []

/-- `TOTPModel.firstTime` (lines 37-39): `not FILE_LOCATION.exists()`. -/
def TOTPModel.firstTime (file : Option (List Nat)) : Bool :=
  file.isNone

/-- `TOTPModel.rowCount` (lines 86-87). -/
def TOTPModel.rowCount (m : ModelState) (parent : MIdx) : Nat :=
  if !parent.valid then m.totps.length else 0

/-- `QAbstractItemModel.checkIndex` with options
`IndexIsValid | ParentIsInvalid` as called on line 139: the index must be
valid, its parent invalid, and its row in range for the model. -/
def checkIndex (m : ModelState) (i : MIdx) : Bool :=
  i.valid && !i.parentValid &&
    decide ((0 : Int) ≤ i.row) && decide (i.row < (m.totps.length : Int))

/-- Qt role numbers used by `TOTPModel.data`. -/
def displayRole : Nat := 0

/-- `QtCore.Qt.ItemDataRole.UserRole` is 0x0100. -/
def userRole : Nat := 256

/-- `TOTPModel.data` (lines 134-157): `None` on a failing `checkIndex`; the
derived label for `DisplayRole`; the stored TOTP object for `UserRole`;
`None` (falling off the end of the function) for any other role. -/
def TOTPModel.data (m : ModelState) (i : MIdx) (role : Nat) : Option DataVal :=
  if checkIndex m i then
    let t := m.totps.getD i.row.toNat defaultOTP
    if role = displayRole then
      some (.str (if !t.issuer.isEmpty then
        (if !t.name.isEmpty then t.issuer ++ " for " ++ t.name else t.issuer)
        else t.name))
    else if role = userRole then some (.totp t)
    else none
  else none

/-- `TOTPModel.add` (lines 89-100): build a `pyotp.TOTP` and validate it by
generating one code; on `ValueError` return `-1` without touching anything;
otherwise append, save, and return the new index.  Result: return value, new
state, new file contents, writes performed. -/
def TOTPModel.add (L : Lib) (st : ModelState) (file : Option (List Nat))
    (issuer name secret : String) :
    Int × ModelState × Option (List Nat) × List (List Nat) :=
  let t := pyTOTP secret issuer name
  if secretValid t.secret then
    let st' := { st with totps := st.totps ++ [t] }
    let d := TOTPModel.save L st'
    ((st'.totps.length : Int) - 1, st', some d, [d])
  else
    (-1, st, file, [])

mutual

/-- `_recursiveSearch` (lines 107-121): depth-first walk of the parsed JSON
document; a string starting with `otpauth://totp` yields a descriptor when
`pyotp.parse_uri` succeeds and one code generates without raising, and is
silently dropped otherwise. -/
def recursiveSearch (L : Lib) : JVal → List OTP
  | .str s =>
    if s.startsWith "otpauth://totp" then
      match L.parseUri s with
      | some t => if secretValid t.secret then [t] else []
      | none => []
    else []
  | .arr xs => searchArr L xs
  | .obj kvs => searchObj L kvs
  | .num _ => []
  | .bool _ => []
  | .null => []

/-- Element-wise walk of a JSON array, in order. -/
def searchArr (L : Lib) : List JVal → List OTP
  | [] => []
  | x :: xs => recursiveSearch L x ++ searchArr L xs

/-- Value-wise walk of a JSON object, in member order (keys ignored). -/
def searchObj (L : Lib) : List (String × JVal) → List OTP
  | [] => []
  | (_, v) :: kvs => recursiveSearch L v ++ searchObj L kvs

end

/-- `TOTPModel.importFromFile` (lines 102-132), applied to the already-parsed
document: collect the extracted descriptors; if any were found, append them
all and save once; otherwise do nothing. -/
def TOTPModel.importFromFile (L : Lib) (st : ModelState)
    (file : Option (List Nat)) (doc : JVal) :
    ModelState × Option (List Nat) × List (List Nat) :=
  let totps := recursiveSearch L doc
  if totps.isEmpty then (st, file, [])
  else
    let st' := { st with totps := st.totps ++ totps }
    let d := TOTPModel.save L st'
    (st', some d, [d])

/-- `QAbstractListModel.index(row, 0)`: a valid parentless index when `row`
is in range, the invalid index otherwise. -/
def TOTPModel.index (m : ModelState) (row : Int) : MIdx :=
  if 0 ≤ row ∧ row < (m.totps.length : Int) then
    { row := row, valid := true, parentValid := false }
  else
    { row := -1, valid := false, parentValid := false }

/-- Python's `%` on a positive real divisor: `x - p * floor(x / p)`. -/
def pyMod (x p : ℚ) : ℚ := x - p * ⌊x / p⌋

/-- `TOTP.timeLeft` (lines 237-242).  `model` is the bound `TOTPModel`'s
state (or `none`), `index` the bound row, `now` the value of
`datetime.datetime.now().timestamp()`.  Returns `none` when the row lookup
returns Python `None` and `.interval` raises (uncaught). -/
def TOTP.timeLeft (model : Option ModelState) (index : Int) (now : ℚ) :
    Option ℚ :=
  match model with
  | none => some 0
  | some m =>
    if index = -1 then some 0
    else
      match TOTPModel.data m (TOTPModel.index m index) userRole with
      | some (.totp t) => some ((t.interval : ℚ) - pyMod now (t.interval : ℚ))
      | _ => none

mutual

/-- Specification-side description of the importer's traversal: the list of
all strings of a JSON document in depth-first order (sequence order,
mapping-value order). -/
def docStrings : JVal → List String
  | .str s => [s]
  | .arr xs => docStringsArr xs
  | .obj kvs => docStringsObj kvs
  | .num _ => []
  | .bool _ => []
  | .null => []

/-- Strings of the elements of a JSON array, in order. -/
def docStringsArr : List JVal → List String
  | [] => []
  | x :: xs => docStrings x ++ docStringsArr xs

/-- Strings of the values of a JSON object, in member order. -/
def docStringsObj : List (String × JVal) → List String
  | [] => []
  | (_, v) :: kvs => docStrings v ++ docStringsObj kvs

end

/-- Whether one string of the imported document contributes a descriptor: it
must carry the `otpauth://totp` scheme, parse, and validate. -/
def uriPick (L : Lib) (s : String) : Option OTP :=
  if s.startsWith "otpauth://totp" then
    match L.parseUri s with
    | some t => if secretValid t.secret then some t else none
    | none => none
  else none

/-- Concrete key derivation for the witness library: password bytes followed
by the salt (deterministic, password- and salt-dependent). -/
def deriveC (pw : String) (salt : List Nat) : List Nat :=
  pw.data.map Char.toNat ++ salt

/-- Concrete authenticated encryption for the witness library: record the key
length and the key in front of the plaintext. -/
def encC (key pt : List Nat) : List Nat :=
  key.length :: key ++ pt

/-- Concrete authenticated decryption: succeeds exactly when the stored key
matches the supplied one. -/
def decC (key c : List Nat) : Option (List Nat) :=
  match c with
  | [] => none
  | n :: rest =>
    if n = key.length ∧ rest.take key.length = key then some (rest.drop key.length)
    else none

/-- Concrete serialisation of a list of strings: element count, then each
string as its length followed by its character codes. -/
def jencC (l : List String) : List Nat :=
  l.length :: l.flatMap (fun s => s.data.length :: s.data.map Char.toNat)

/-- Deserialise `n` length-prefixed strings from a byte stream. -/
def jdecAux : Nat → List Nat → Option (List String × List Nat)
  | 0, rest => some ([], rest)
  | _ + 1, [] => none
  | n + 1, len :: rest =>
    if len ≤ rest.length then
      match jdecAux n (rest.drop len) with
      | some (ss, r) => some (String.mk ((rest.take len).map Char.ofNat) :: ss, r)
      | none => none
    else none

/-- Concrete deserialisation of a list of strings, inverse of `jencC`. -/
def jdecC (b : List Nat) : Option (List String) :=
  match b with
  | [] => none
  | n :: rest =>
    match jdecAux n rest with
    | some (ss, []) => some ss
    | _ => none

/-- Split a character list at every occurrence of `c`. -/
def splitChar (c : Char) (cs : List Char) : List (List Char) :=
  cs.foldr (fun x acc =>
    match acc with
    | g :: gs => if x = c then [] :: g :: gs else (x :: g) :: gs
    | [] => [[x]]) [[]]

/-- Concrete provisioning URI for the witness library: the descriptor's
fields joined by `/` under the `otpauth://totp/` scheme. -/
def provC (t : OTP) : String :=
  "otpauth://totp/" ++ t.issuer ++ "/" ++ t.name ++ "/" ++ t.secret ++ "/" ++
    toString t.digits ++ "/" ++ toString t.interval

/-- Parse a non-empty decimal digit string. -/
def natOfDigits (cs : List Char) : Option Nat :=
  if cs = [] then none
  else
    cs.foldl (fun acc c =>
      match acc with
      | none => none
      | some n => if '0' ≤ c ∧ c ≤ '9' then some (10 * n + (c.toNat - '0'.toNat)) else none)
      (some 0)

/-- Concrete URI parsing for the witness library, inverse of `provC` on
descriptors whose fields contain no `/`. -/
def parseC (s : String) : Option OTP :=
  match (splitChar '/' s.data).map String.mk with
  | ["otpauth:", "", "totp", i, n, sec, d, p] =>
    match natOfDigits d.data, natOfDigits p.data with
    | some dn, some pn => some ⟨i, n, sec, dn, pn⟩
    | _, _ => none
  | _ => none

/-- The executable witness library: all `Lib` fields instantiated with the
concrete functions above. -/
def LibC : Lib :=
  { parseUri := parseC
    provisioningUri := provC
    derive := deriveC
    encrypt := encC
    decrypt := decC
    jsonEncodeStrs := jencC
    jsonDecodeStrs := jdecC }

/-- Concrete descriptor used by witnesses and counterexamples. -/
def t0C : OTP := ⟨"GitHub", "alice", "AAAAAAAA", 6, 30⟩

/-- Concrete 16-byte salt. -/
def saltC : List Nat := List.replicate 16 0

/-- C5 — Short-file no-op: if the vault file exists but is shorter than 16
bytes, `unlock` returns without an error and changes nothing: the state is
returned as is (collection, salt, key, `unlocked` and `failedToLoad`
untouched), the file is unchanged and no write is performed. -/
theorem TOTPModel.unlock_short_file_noop (L : Lib) (st : ModelState)
    (d : List Nat) (pw : String) (rnd : List Nat) (h : d.length < 16) :
    TOTPModel.unlock L st (some d) pw rnd = some (st, some d, []) := by
  simp [TOTPModel.unlock, h]

/-- Witness for C5 at a concrete 1-byte vault file. -/
theorem TOTPModel.unlock_short_file_noop_witness :
    ([5] : List Nat).length < 16 ∧
      TOTPModel.unlock LibC TOTPModel.init (some [5]) "pw" [] =
        some (TOTPModel.init, some [5], []) :=
  ⟨by decide,
   TOTPModel.unlock_short_file_noop LibC TOTPModel.init [5] "pw" [] (by decide)⟩

/-- C4 — First-run unlock: with no vault file and a 16-byte random draw,
`unlock` succeeds for every password, empties the collection, stores the
fresh salt and derived key, sets `unlocked`, and performs exactly one write:
the salt followed by the ciphertext of the JSON-encoded empty list; the
`firstTime` flag is false against the resulting file. -/
theorem TOTPModel.unlock_first_run (L : Lib) (st : ModelState) (pw : String)
    (rnd : List Nat) (hr : rnd.length = 16) :
    TOTPModel.unlock L st none pw rnd =
      some ({ st with totps := [], salt := rnd, key := L.derive pw rnd, unlocked := true },
            some (rnd ++ L.encrypt (L.derive pw rnd) (L.jsonEncodeStrs [])),
            [rnd ++ L.encrypt (L.derive pw rnd) (L.jsonEncodeStrs [])]) ∧
    TOTPModel.firstTime
        (some (rnd ++ L.encrypt (L.derive pw rnd) (L.jsonEncodeStrs []))) = false := by
  have h1 : rnd.take 16 = rnd := by rw [← hr, List.take_length]
  have h2 : ¬ 16 < rnd.length := by omega
  refine ⟨?_, rfl⟩
  simp [TOTPModel.unlock, TOTPModel.unlockLoaded, parseAll, TOTPModel.save, h1, h2]

/-- Witness for C4: concrete first-run unlock with the witness library. -/
theorem TOTPModel.unlock_first_run_witness :
    saltC.length = 16 ∧
      TOTPModel.unlock LibC TOTPModel.init none "pw" saltC =
        some ({ TOTPModel.init with totps := [], salt := saltC, key := LibC.derive "pw" saltC, unlocked := true },
              some (saltC ++ LibC.encrypt (LibC.derive "pw" saltC) (LibC.jsonEncodeStrs [])),
              [saltC ++ LibC.encrypt (LibC.derive "pw" saltC) (LibC.jsonEncodeStrs [])]) ∧
      TOTPModel.firstTime
          (some (saltC ++ LibC.encrypt (LibC.derive "pw" saltC) (LibC.jsonEncodeStrs []))) = false :=
  ⟨by decide,
   (TOTPModel.unlock_first_run LibC TOTPModel.init "pw" saltC (by decide)).1,
   (TOTPModel.unlock_first_run LibC TOTPModel.init "pw" saltC (by decide)).2⟩

/-- C3 (amended) — Failed-decryption atomicity for files of more than 16
bytes: when the ciphertext after the 16-byte salt does not authenticate under
the key derived from the password, `unlock` only sets `failedToLoad`; the
collection, salt, key and `unlocked` flag are untouched, the vault file is
unchanged, and no write happens. -/
theorem TOTPModel.unlock_auth_failure_frame (L : Lib) (st : ModelState)
    (d : List Nat) (pw : String) (rnd : List Nat) (hlen : 16 < d.length)
    (hdec : L.decrypt (L.derive pw (d.take 16)) (d.drop 16) = none) :
    TOTPModel.unlock L st (some d) pw rnd =
      some ({ st with failedToLoad := true }, some d, []) := by
  have h1 : ¬ d.length < 16 := by omega
  simp [TOTPModel.unlock, h1, hlen, hdec]

/-- Witness for C3's amended theorem: a concrete tampered 17-byte file. -/
theorem TOTPModel.unlock_auth_failure_frame_witness :
    16 < (saltC ++ [9]).length ∧
      LibC.decrypt (LibC.derive "pw" ((saltC ++ [9]).take 16)) ((saltC ++ [9]).drop 16) = none ∧
      TOTPModel.unlock LibC TOTPModel.init (some (saltC ++ [9])) "pw" [] =
        some ({ TOTPModel.init with failedToLoad := true }, some (saltC ++ [9]), []) :=
  ⟨by decide, by decide,
   TOTPModel.unlock_auth_failure_frame LibC TOTPModel.init (saltC ++ [9]) "pw" []
     (by decide) (by decide)⟩

/-- Counterexample to C3 as stated ("at least 16 bytes"): a vault file of
exactly 16 bytes has an empty ciphertext, which fails to authenticate
(`LibC.decrypt` of the empty string is `none`, as Fernet rejects an empty
token), yet `unlock` does not transition to `FailedToLoad` — it takes the
success path, replaces the in-memory collection with the empty list, records
salt and key, and sets `unlocked`. -/
theorem TOTPModel.unlock_sixteen_byte_counterexample :
    16 ≤ saltC.length ∧
      LibC.decrypt (LibC.derive "pw" (saltC.take 16)) (saltC.drop 16) = none ∧
      TOTPModel.unlock LibC ⟨[t0C], [], [], false, false⟩ (some saltC) "pw" [] =
        some (⟨[], saltC, LibC.derive "pw" saltC, true, false⟩, some saltC, []) ∧
      (⟨[], saltC, LibC.derive "pw" saltC, true, false⟩ : ModelState).failedToLoad = false ∧
      (⟨[], saltC, LibC.derive "pw" saltC, true, false⟩ : ModelState).totps ≠ [t0C] := by
  refine ⟨by decide, by decide, by decide, rfl, by decide⟩

/-- C6 — Add validation and atomicity: with an invalid secret (not base32 or
decoding to an empty secret, so that descriptor validation raises), `add`
returns `-1`, the state is unchanged and nothing is written; with a valid
secret, `add` appends exactly one descriptor at the end, writes the saved
vault once, and returns the new length minus one. -/
theorem TOTPModel.add_spec (L : Lib) (st : ModelState) (file : Option (List Nat))
    (issuer name secret : String) :
    (secretValid secret = false →
      TOTPModel.add L st file issuer name secret = (-1, st, file, [])) ∧
    (secretValid secret = true →
      TOTPModel.add L st file issuer name secret =
        ((st.totps.length : Int),
         { st with totps := st.totps ++ [pyTOTP secret issuer name] },
         some (TOTPModel.save L { st with totps := st.totps ++ [pyTOTP secret issuer name] }),
         [TOTPModel.save L { st with totps := st.totps ++ [pyTOTP secret issuer name] }])) := by
  constructor <;> intro h
  · simp [TOTPModel.add, pyTOTP, h]
  · simp [TOTPModel.add, pyTOTP, h]

/-- Witness for C6: an invalid secret (`"1"`) is refused without mutation,
and a valid secret (`"AAAAAAAA"`) is appended at index 0. -/
theorem TOTPModel.add_spec_witness :
    secretValid "1" = false ∧
      TOTPModel.add LibC TOTPModel.init none "GitHub" "alice" "1" =
        (-1, TOTPModel.init, none, []) ∧
    secretValid "AAAAAAAA" = true ∧
      TOTPModel.add LibC TOTPModel.init none "GitHub" "alice" "AAAAAAAA" =
        ((TOTPModel.init.totps.length : Int),
         { TOTPModel.init with totps := TOTPModel.init.totps ++ [pyTOTP "AAAAAAAA" "GitHub" "alice"] },
         some (TOTPModel.save LibC
           { TOTPModel.init with totps := TOTPModel.init.totps ++ [pyTOTP "AAAAAAAA" "GitHub" "alice"] }),
         [TOTPModel.save LibC
           { TOTPModel.init with totps := TOTPModel.init.totps ++ [pyTOTP "AAAAAAAA" "GitHub" "alice"] }]) :=
  ⟨by decide,
   (TOTPModel.add_spec LibC TOTPModel.init none "GitHub" "alice" "1").1 (by decide),
   by decide,
   (TOTPModel.add_spec LibC TOTPModel.init none "GitHub" "alice" "AAAAAAAA").2 (by decide)⟩

/-- Fernet key for the password `"right"` under `saltC` in the witness
library. -/
def keyRightC : List Nat := deriveC "right" saltC

/-- A concrete saved empty vault: `saltC` followed by the encryption of the
JSON-encoded empty list under `keyRightC`. -/
def vaultC : List Nat := saltC ++ encC keyRightC (jencC [])

/-- Counterexample to C2 as stated: unlocking `vaultC` with the wrong
password sets `failedToLoad`; retrying with the correct password then sets
`unlocked` but never clears `failedToLoad` (no code path resets it), so after
this two-step sequence the observable flags `unlocked` and `failedToLoad` are
both true — the store is not in exactly one of Locked/Unlocked/FailedToLoad,
and `failedToLoad` is still reported after the successful retry. -/
theorem TOTPModel.unlock_flags_counterexample :
    TOTPModel.unlock LibC TOTPModel.init (some vaultC) "wrong" [] =
      some (⟨[], [], [], false, true⟩, some vaultC, []) ∧
    TOTPModel.unlock LibC ⟨[], [], [], false, true⟩ (some vaultC) "right" [] =
      some (⟨[], saltC, keyRightC, true, true⟩, some vaultC, []) ∧
    (⟨[], saltC, keyRightC, true, true⟩ : ModelState).unlocked = true ∧
    (⟨[], saltC, keyRightC, true, true⟩ : ModelState).failedToLoad = true := by
  refine ⟨by decide, by decide, rfl, rfl⟩

/-- C2 (amended) — after an unlock that failed with `AuthenticationError`
(`failedToLoad` is true), a subsequent unlock with the correct password does
succeed and sets `unlocked`, but `failedToLoad` remains true: the
`unlocked`/`failedToLoad` flags are simultaneously true, so the three states
are not mutually exclusive and `failedToLoad` is still reported. -/
theorem TOTPModel.unlock_retry_keeps_failed_flag (L : Lib) (st : ModelState)
    (d : List Nat) (pw : String) (rnd : List Nat) (pt : List Nat)
    (uris : List String) (ts : List OTP)
    (hfail : st.failedToLoad = true)
    (hlen : 16 < d.length)
    (hdec : L.decrypt (L.derive pw (d.take 16)) (d.drop 16) = some pt)
    (hjson : L.jsonDecodeStrs pt = some uris)
    (hparse : parseAll L uris = some ts) :
    TOTPModel.unlock L st (some d) pw rnd =
      some ({ st with totps := ts, salt := d.take 16, key := L.derive pw (d.take 16), unlocked := true },
            some d, []) ∧
    ({ st with totps := ts, salt := d.take 16, key := L.derive pw (d.take 16), unlocked := true }
        : ModelState).unlocked = true ∧
    ({ st with totps := ts, salt := d.take 16, key := L.derive pw (d.take 16), unlocked := true }
        : ModelState).failedToLoad = true := by
  have h1 : ¬ d.length < 16 := by omega
  exact ⟨by simp [TOTPModel.unlock, TOTPModel.unlockLoaded, h1, hlen, hdec, hjson, hparse],
         rfl, hfail⟩

/-- Witness for C2's amended theorem: concrete retry with the correct
password from a failed state. -/
theorem TOTPModel.unlock_retry_keeps_failed_flag_witness :
    (⟨[], [], [], false, true⟩ : ModelState).failedToLoad = true ∧
    16 < vaultC.length ∧
    LibC.decrypt (LibC.derive "right" (vaultC.take 16)) (vaultC.drop 16) = some (jencC []) ∧
    LibC.jsonDecodeStrs (jencC []) = some [] ∧
    parseAll LibC [] = some [] ∧
    TOTPModel.unlock LibC ⟨[], [], [], false, true⟩ (some vaultC) "right" [] =
      some ({ (⟨[], [], [], false, true⟩ : ModelState) with
                totps := [], salt := vaultC.take 16,
                key := LibC.derive "right" (vaultC.take 16), unlocked := true },
            some vaultC, []) :=
  ⟨rfl, by decide, by decide, by decide, by decide,
   (TOTPModel.unlock_retry_keeps_failed_flag LibC ⟨[], [], [], false, true⟩ vaultC
      "right" [] (jencC []) [] [] rfl (by decide) (by decide) (by decide) (by decide)).1⟩

/-- If every descriptor's provisioning URI parses back to a descriptor with
the same provisioning URI, then parsing the whole URI list succeeds and
reproduces the URI list. -/
theorem parseAll_roundtrip (L : Lib) (l : List OTP)
    (h : ∀ t ∈ l, ∃ t', L.parseUri (L.provisioningUri t) = some t' ∧
          L.provisioningUri t' = L.provisioningUri t) :
    ∃ ts, parseAll L (l.map L.provisioningUri) = some ts ∧
      ts.map L.provisioningUri = l.map L.provisioningUri := by
  induction l with
  | nil => exact ⟨[], rfl, rfl⟩
  | cons t l ih =>
    obtain ⟨t', hpt, hpv⟩ := h t (List.mem_cons_self t l)
    obtain ⟨ts, hts, hmap⟩ := ih fun u hu => h u (List.mem_cons_of_mem t hu)
    refine ⟨t' :: ts, ?_, ?_⟩
    · simp [parseAll, hpt, hts]
    · simp [hpv, hmap]

/-- C1 — Persistence fidelity round trip: from any state reachable by a
successful unlock (16-byte salt, key derived from it and the password),
saving the vault with `_save` and unlocking a fresh store against the
resulting file with the same password succeeds, and yields exactly the same
ordered list of secrets compared by provisioning URI.  The library contract
is assumed pointwise: decryption inverts encryption on the saved payload,
JSON decoding inverts encoding on the URI list, the ciphertext is non-empty
(a Fernet token never is), and each saved URI parses back to a descriptor
with the same URI. -/
theorem TOTPModel.save_unlock_roundtrip (L : Lib) (st : ModelState)
    (pw : String) (rnd : List Nat)
    (hsalt : st.salt.length = 16)
    (hkey : st.key = L.derive pw st.salt)
    (hct : L.encrypt st.key (L.jsonEncodeStrs (st.totps.map L.provisioningUri)) ≠ [])
    (hdec : L.decrypt st.key
        (L.encrypt st.key (L.jsonEncodeStrs (st.totps.map L.provisioningUri))) =
      some (L.jsonEncodeStrs (st.totps.map L.provisioningUri)))
    (hjson : L.jsonDecodeStrs (L.jsonEncodeStrs (st.totps.map L.provisioningUri)) =
      some (st.totps.map L.provisioningUri))
    (hparse : ∀ t ∈ st.totps, ∃ t', L.parseUri (L.provisioningUri t) = some t' ∧
          L.provisioningUri t' = L.provisioningUri t) :
    ∃ st' : ModelState,
      TOTPModel.unlock L TOTPModel.init (some (TOTPModel.save L st)) pw rnd =
        some (st', some (TOTPModel.save L st), []) ∧
      st'.totps.map L.provisioningUri = st.totps.map L.provisioningUri ∧
      st'.unlocked = true := by
  obtain ⟨ts, hts, hmap⟩ := parseAll_roundtrip L st.totps hparse
  set ct := L.encrypt st.key (L.jsonEncodeStrs (st.totps.map L.provisioningUri)) with hctdef
  have hsave : TOTPModel.save L st = st.salt ++ ct := rfl
  have hlen : (st.salt ++ ct).length = 16 + ct.length := by simp [hsalt]
  have hctpos : 0 < ct.length := List.length_pos.mpr hct
  have htake : (st.salt ++ ct).take 16 = st.salt := by rw [← hsalt, List.take_left]
  have hdrop : (st.salt ++ ct).drop 16 = ct := by rw [← hsalt, List.drop_left]
  have h1 : ¬ (st.salt ++ ct).length < 16 := by omega
  have h2 : 16 < (st.salt ++ ct).length := by omega
  refine ⟨{ TOTPModel.init with totps := ts, salt := st.salt, key := st.key, unlocked := true },
          ?_, ?_, rfl⟩
  · rw [hsave]
    simp only [TOTPModel.unlock, h1, if_false, htake, hdrop, ← hkey, hdec, hjson, h2, if_true,
      TOTPModel.unlockLoaded, hts]
  · simpa using hmap

/-- A concrete unlocked state holding one descriptor, for the round-trip
witness. -/
def stRoundC : ModelState := ⟨[t0C], saltC, deriveC "pw" saltC, true, false⟩

/-- Witness for C1: the concrete library and a one-descriptor state satisfy
all contract hypotheses, and the save/unlock round trip reproduces the
provisioning URI list. -/
theorem TOTPModel.save_unlock_roundtrip_witness :
    stRoundC.salt.length = 16 ∧
    stRoundC.key = LibC.derive "pw" stRoundC.salt ∧
    ∃ st' : ModelState,
      TOTPModel.unlock LibC TOTPModel.init (some (TOTPModel.save LibC stRoundC)) "pw" [] =
        some (st', some (TOTPModel.save LibC stRoundC), []) ∧
      st'.totps.map LibC.provisioningUri = stRoundC.totps.map LibC.provisioningUri ∧
      st'.unlocked = true :=
  ⟨by decide, rfl,
   TOTPModel.save_unlock_roundtrip LibC stRoundC "pw" [] (by decide) rfl (by decide)
     (by decide) (by decide)
     (by
       intro t ht
       rw [show stRoundC.totps = [t0C] from rfl, List.mem_singleton] at ht
       subst ht
       exact ⟨t0C, by decide, rfl⟩)⟩

mutual

/-- The importer's walk extracts exactly the document's strings, in
depth-first order, filtered by scheme prefix, parse success and
validation. -/
theorem recursiveSearch_spec (L : Lib) (j : JVal) :
    recursiveSearch L j = (docStrings j).filterMap (uriPick L) := by
  cases j with
  | str s =>
    simp only [recursiveSearch, docStrings, uriPick, List.filterMap_cons, List.filterMap_nil]
    split
    · cases L.parseUri s with
      | none => simp
      | some t => cases hv : secretValid t.secret <;> simp [hv]
    · simp
  | arr xs => exact searchArr_spec L xs
  | obj kvs => exact searchObj_spec L kvs
  | num k => rfl
  | bool b => rfl
  | null => rfl

/-- Array case of `recursiveSearch_spec`. -/
theorem searchArr_spec (L : Lib) (xs : List JVal) :
    searchArr L xs = (docStringsArr xs).filterMap (uriPick L) := by
  cases xs with
  | nil => rfl
  | cons x xs =>
    rw [searchArr, docStringsArr, List.filterMap_append,
      recursiveSearch_spec L x, searchArr_spec L xs]

/-- Object case of `recursiveSearch_spec`. -/
theorem searchObj_spec (L : Lib) (kvs : List (String × JVal)) :
    searchObj L kvs = (docStringsObj kvs).filterMap (uriPick L) := by
  cases kvs with
  | nil => rfl
  | cons kv kvs =>
    rw [show searchObj L (kv :: kvs) = recursiveSearch L kv.2 ++ searchObj L kvs from rfl,
      show docStringsObj (kv :: kvs) = docStrings kv.2 ++ docStringsObj kvs from rfl,
      List.filterMap_append, recursiveSearch_spec L kv.2, searchObj_spec L kvs]

end

/-- C7 — Import extraction: `importFromFile` appends exactly the strings of
the document that carry the `otpauth://totp` prefix, parse, and validate —
in depth-first document order (sequence order, mapping-value order), invalid
matching strings silently dropped — and writes the saved vault exactly once
when at least one descriptor was found, and performs no write and no state
change otherwise. -/
theorem TOTPModel.importFromFile_spec (L : Lib) (st : ModelState)
    (file : Option (List Nat)) (doc : JVal) :
    TOTPModel.importFromFile L st file doc =
      (if ((docStrings doc).filterMap (uriPick L)).isEmpty then (st, file, [])
       else
         ({ st with totps := st.totps ++ (docStrings doc).filterMap (uriPick L) },
          some (TOTPModel.save L
            { st with totps := st.totps ++ (docStrings doc).filterMap (uriPick L) }),
          [TOTPModel.save L
            { st with totps := st.totps ++ (docStrings doc).filterMap (uriPick L) }])) := by
  rw [TOTPModel.importFromFile, recursiveSearch_spec]

/-- C8 — Seconds remaining: for a bound row (model set, index not `-1`, row
in range) whose descriptor has period `p > 0`, `timeLeft` is
`p - (now mod p)`; and — for every model state whatsoever and every time —
`timeLeft` is `0` when no model is set, and `0` when the index is `-1`. -/
theorem TOTP.timeLeft_spec (m : ModelState) (idx : Int) (now : ℚ) (p : Nat)
    (h0 : 0 ≤ idx) (h1 : idx.toNat < m.totps.length)
    (hp : (m.totps.getD idx.toNat defaultOTP).interval = p) (hpos : 0 < p) :
    TOTP.timeLeft (some m) idx now = some ((p : ℚ) - pyMod now (p : ℚ)) ∧
    (∀ (i : Int) (n : ℚ), TOTP.timeLeft none i n = some 0) ∧
    (∀ (m' : ModelState) (n : ℚ), TOTP.timeLeft (some m') (-1) n = some 0) := by
  have hne : idx ≠ -1 := by omega
  have h2 : idx < (m.totps.length : Int) := by omega
  have hp2 : m.totps[idx.toNat].interval = p := by
    rw [List.getD_eq_getElem?_getD, List.getElem?_eq_getElem h1] at hp
    exact hp
  refine ⟨?_, fun i n => rfl, fun m' n => by simp [TOTP.timeLeft]⟩
  simp [TOTP.timeLeft, hne, TOTPModel.index, h0, h2, TOTPModel.data, checkIndex,
    userRole, displayRole, hp2]

/-- Witness for C8: a concrete bound row with period 30 at time 10, plus the
zero cases — no model at all, and index `-1` on a model with an empty
collection. -/
theorem TOTP.timeLeft_spec_witness :
    (0 : Int) ≤ 0 ∧
    (0 : Int).toNat < ([t0C] : List OTP).length ∧
    (([t0C] : List OTP).getD (0 : Int).toNat defaultOTP).interval = 30 ∧
    0 < 30 ∧
    TOTP.timeLeft (some ⟨[t0C], [], [], true, false⟩) 0 10 =
      some ((30 : ℚ) - pyMod 10 (30 : ℚ)) ∧
    TOTP.timeLeft none 5 3 = some 0 ∧
    TOTP.timeLeft (some TOTPModel.init) (-1) 3 = some 0 :=
  ⟨le_refl 0, by decide, by decide, by decide,
   (TOTP.timeLeft_spec ⟨[t0C], [], [], true, false⟩ 0 10 30
      (le_refl 0) (by decide) (by decide) (by decide)).1,
   (TOTP.timeLeft_spec ⟨[t0C], [], [], true, false⟩ 0 10 30
      (le_refl 0) (by decide) (by decide) (by decide)).2.1 5 3,
   (TOTP.timeLeft_spec ⟨[t0C], [], [], true, false⟩ 0 10 30
      (le_refl 0) (by decide) (by decide) (by decide)).2.2 TOTPModel.init 3⟩

/-- C9 — Display label derivation: for a row that passes `checkIndex`, the
`DisplayRole` value is `"{issuer} for {name}"` when both are non-empty, the
issuer alone when only the issuer is non-empty, the name alone when only the
name is non-empty, and the empty string when both are empty. -/
theorem TOTPModel.data_display_label (m : ModelState) (i : MIdx) (t : OTP)
    (hchk : checkIndex m i = true)
    (ht : m.totps.getD i.row.toNat defaultOTP = t) :
    (t.issuer ≠ "" → t.name ≠ "" →
      TOTPModel.data m i displayRole = some (.str (t.issuer ++ " for " ++ t.name))) ∧
    (t.issuer ≠ "" → t.name = "" →
      TOTPModel.data m i displayRole = some (.str t.issuer)) ∧
    (t.issuer = "" → t.name ≠ "" →
      TOTPModel.data m i displayRole = some (.str t.name)) ∧
    (t.issuer = "" → t.name = "" →
      TOTPModel.data m i displayRole = some (.str "")) := by
  rw [List.getD_eq_getElem?_getD] at ht
  refine ⟨?_, ?_, ?_, ?_⟩ <;> intro hi hn <;>
    simp [TOTPModel.data, hchk, ht, displayRole, Bool.eq_false_iff,
      String.isEmpty_iff, hi, hn]

/-- Witness for C9 at a concrete one-row model with both fields present. -/
theorem TOTPModel.data_display_label_witness :
    checkIndex ⟨[t0C], [], [], true, false⟩ ⟨0, true, false⟩ = true ∧
    TOTPModel.data ⟨[t0C], [], [], true, false⟩ ⟨0, true, false⟩ displayRole =
      some (.str ("GitHub" ++ " for " ++ "alice")) :=
  ⟨by decide,
   (TOTPModel.data_display_label ⟨[t0C], [], [], true, false⟩ ⟨0, true, false⟩ t0C
      (by decide) rfl).1 (by decide) (by decide)⟩

/-- C10 — Invalid-index safety: `data` returns `None` for an index whose row
is out of range or whose parent is valid, and for any role other than
`DisplayRole` and `UserRole`; `rowCount` with a valid parent index is `0`. -/
theorem TOTPModel.data_invalid_safe (m : ModelState) (i : MIdx) (role : Nat)
    (parent : MIdx) :
    (i.row < 0 ∨ (m.totps.length : Int) ≤ i.row ∨ i.parentValid = true →
      TOTPModel.data m i role = none) ∧
    (role ≠ displayRole → role ≠ userRole → TOTPModel.data m i role = none) ∧
    (parent.valid = true → TOTPModel.rowCount m parent = 0) := by
  refine ⟨?_, ?_, ?_⟩
  · intro h
    by_cases hc : checkIndex m i = true
    · simp only [checkIndex, Bool.and_eq_true, decide_eq_true_eq,
        Bool.not_eq_true'] at hc
      rcases h with h | h | h
      · omega
      · omega
      · rw [h] at hc
        simp at hc
    · simp [TOTPModel.data, hc]
  · intro h1 h2
    cases hc : checkIndex m i <;> simp [TOTPModel.data, hc, h1, h2]
  · intro h
    simp [TOTPModel.rowCount, h]

/-- Witness for C10: negative row, unknown role, and a valid parent at a
concrete model. -/
theorem TOTPModel.data_invalid_safe_witness :
    TOTPModel.data ⟨[t0C], [], [], true, false⟩ ⟨-3, true, false⟩ displayRole = none ∧
    TOTPModel.data ⟨[t0C], [], [], true, false⟩ ⟨0, true, false⟩ 7 = none ∧
    TOTPModel.rowCount ⟨[t0C], [], [], true, false⟩ ⟨0, true, false⟩ = 0 :=
  ⟨(TOTPModel.data_invalid_safe ⟨[t0C], [], [], true, false⟩ ⟨-3, true, false⟩
      displayRole ⟨0, true, false⟩).1 (Or.inl (by decide)),
   (TOTPModel.data_invalid_safe ⟨[t0C], [], [], true, false⟩ ⟨0, true, false⟩ 7
      ⟨0, true, false⟩).2.1 (by decide) (by decide),
   (TOTPModel.data_invalid_safe ⟨[t0C], [], [], true, false⟩ ⟨0, true, false⟩ 7
      ⟨0, true, false⟩).2.2 rfl⟩
